import Mathlib

/-!
Verification of the fuel-stop planning engine of the spotter.ai backend
(`Backend/optimizer_app/utils.py`, `views.py`).

The Python source is shallowly embedded below.  Python floats are modelled
as rationals (`ℚ`).  The geodesic distance function (`geopy.distance.geodesic`,
Karney's algorithm on the WGS84 ellipsoid) is not reproduced bit-for-bit;
instead the planner is parametrised by an arbitrary distance function
`d : Point → Point → ℚ`, which is how every claim about the planner is
quantified.  Concrete instances below use `mdist`, a metric whose values on
the evaluated pairs of points are within a fraction of a percent of the true
geodesic values (69 miles per degree along a meridian).

The KD-tree radius query of `scipy.spatial.KDTree.query_ball_point` is
embedded exactly: it is a plain Euclidean ball query on raw (lat, lon)
degree coordinates (`dist ≤ r`, expressed sqrt-free as
`0 ≤ r ∧ dist² ≤ r²`).  Python's `set` of station indices is modelled as a
duplicate-free list in first-insertion order, and `sort` followed by `[0]`
(a stable sort on the key `(price, -route_point_idx)`) is modelled as the
first list element with the lexicographically minimal key.
-/

namespace Spotter

/-- A (latitude, longitude) pair in WGS84 decimal degrees. -/
structure Point where
  lat : ℚ
  lon : ℚ
deriving DecidableEq, Repr

/-- One entry of the in-memory `FUEL_STATIONS_DATA` list built by
`load_fuel_prices` (the dict keys `latitude`, `longitude`,
`fuel_price_per_gallon`, `db_id`; the cosmetic `name`/`city`/`state`
strings are omitted). -/
structure StationData where
  latitude : ℚ
  longitude : ℚ
  fuel_price_per_gallon : ℚ
  db_id : ℕ
deriving DecidableEq, Repr

/-- Module constant `VEHICLE_RANGE_MILES = 500`. -/
def VEHICLE_RANGE_MILES : ℚ := 500

/-- Module constant `MILES_PER_GALLON = 10`. -/
def MILES_PER_GALLON : ℚ := 10

/-- Module constant `FUEL_BUFFER_MILES = 50`. -/
def FUEL_BUFFER_MILES : ℚ := 50

/-- Local constant `search_radius_miles = 50` of `find_optimal_fuel_stops`. -/
def search_radius_miles : ℚ := 50

/-- `search_radius_degrees = search_radius_miles / 69.0`. -/
def search_radius_degrees : ℚ := search_radius_miles / 69

/-- Python's banker's rounding (`round`) to an integer: round half to even. -/
def roundHalfEven (q : ℚ) : ℤ :=
  if q - ⌊q⌋ < 1/2 then ⌊q⌋
  else if 1/2 < q - ⌊q⌋ then ⌊q⌋ + 1
  else if Even ⌊q⌋ then ⌊q⌋ else ⌊q⌋ + 1

/-- Python's `round(x, 2)`. -/
def round2 (q : ℚ) : ℚ := (roundHalfEven (100 * q) : ℚ) / 100

/-- The consecutive point pairs of a polyline. -/
def routeSegments (route : List Point) : List (Point × Point) :=
  route.zip route.tail

/-- The list of geodesic lengths of the consecutive segments of `route`. -/
def segmentDistances (d : Point → Point → ℚ) (route : List Point) : List ℚ :=
  (routeSegments route).map fun pq => d pq.1 pq.2

/-- `sum(geodesic(route[i], route[i+1]) for i in range(k))`: the distance
along the route up to route index `k` (the recomputation at lines 175-179
and 335-340 of `utils.py`). -/
def distUpTo (d : Point → Point → ℚ) (route : List Point) (k : ℕ) : ℚ :=
  ((segmentDistances d route).take k).sum

/-- `sum(geodesic(route[i], route[i+1]) for i in range(k, len(route)-1))`:
remaining route distance from index `k` to the end (lines 189-194). -/
def distToEndFrom (d : Point → Point → ℚ) (route : List Point) (k : ℕ) : ℚ :=
  ((segmentDistances d route).drop k).sum

/-- Total polyline length of the route. -/
def routeTotal (d : Point → Point → ℚ) (route : List Point) : ℚ :=
  (segmentDistances d route).sum

/-- Helper for `closestIdx`: scan with a strict `<` update, so the first
index achieving the minimum wins — exactly the
`if dist < min_dist: min_dist, idx = dist, i` pattern of the source. -/
def closestIdxGo (d : Point → Point → ℚ) (t : Point) :
    List Point → ℕ → ℚ → ℕ → ℕ
  | [], _, _, best => best
  | p :: ps, i, bigd, best =>
      if d t p < bigd then closestIdxGo d t ps (i + 1) (d t p) i
      else closestIdxGo d t ps (i + 1) bigd best

/-- Index of the route point geodesically nearest to `t` (first minimum),
as in utils.py lines 164-170 and 254-260.  The empty-route case (which in
the source leaves the initial sentinel index) is unreachable behind the
non-empty-route guard. -/
def closestIdx (d : Point → Point → ℚ) (t : Point) (route : List Point) : ℕ :=
  match route with
  | [] => 0
  | p :: ps => closestIdxGo d t ps 1 (d t p) 0

/-- Helper for `lookaheadPoints`: append each next point, accumulating the
segment distance, and stop as soon as the accumulated distance exceeds
`eff` (the `break` after the append at utils.py line 217-218). -/
def lookaheadGo (d : Point → Point → ℚ) (eff : ℚ) :
    Point → List Point → ℚ → List Point
  | _, [], _ => []
  | prev, p :: ps, acc =>
      let acc2 := acc + d prev p
      p :: (if eff < acc2 then [] else lookaheadGo d eff p ps acc2)

/-- The lookahead window of route points starting at index `idx`, bounded
by accumulated segment distance `eff` (utils.py lines 205-218; the first
point is appended before any accumulation, and the point that first
exceeds `eff` is still included). -/
def lookaheadPoints (d : Point → Point → ℚ) (route : List Point) (idx : ℕ)
    (eff : ℚ) : List Point :=
  match route.drop idx with
  | [] => []
  | p :: ps => p :: (if eff < 0 then [] else lookaheadGo d eff p ps 0)

/-- `KDTree.query_ball_point(x, r)` over the coordinate array: all indices
whose point lies within Euclidean degree-distance `r` of `x`
(`dist ≤ r` written sqrt-free). -/
def query_ball_point (coords : List Point) (x : Point) (r : ℚ) : List ℕ :=
  (List.range coords.length).filter fun i =>
    let c := coords.getD i ⟨0, 0⟩
    decide (0 ≤ r ∧ (c.lat - x.lat) ^ 2 + (c.lon - x.lon) ^ 2 ≤ r ^ 2)

/-- The `unique_candidate_station_indices` set (utils.py lines 228-232):
the union of the ball queries of all lookahead points, modelled as a
duplicate-free list in first-insertion order. -/
def unique_candidate_station_indices (coords : List Point)
    (pts : List Point) (r : ℚ) : List ℕ :=
  pts.foldl
    (fun acc p => acc ++ (query_ball_point coords p r).filter
      (fun i => decide (i ∉ acc)))
    []

/-- The coordinate array `FUEL_STATIONS_COORDS` backing the KD-tree,
index-aligned with the station data list. -/
def stationCoords (stations : List StationData) : List Point :=
  stations.map fun s => ⟨s.latitude, s.longitude⟩

/-- One entry of `viable_candidates` (utils.py lines 277-283); the
`station` dict is referenced by its index in the data list. -/
structure Candidate where
  stationIdx : ℕ
  dist_from_current_location : ℚ
  price : ℚ
  route_point_idx : ℕ
  detour_distance : ℚ
deriving DecidableEq, Repr

/-- Inputs of one call to `find_optimal_fuel_stops`, together with the
catalog snapshot it reads from module globals and the abstract geodesic
distance function. -/
structure PlanConfig where
  route_geometry : List Point
  total_distance_miles : ℚ
  start_coords : Point
  end_coords : Point
  stations : List StationData
  d : Point → Point → ℚ

/-- The station dict at index `i` of the loaded data list
(`FUEL_STATIONS_DATA[station_idx]`). -/
def stationAt (cfg : PlanConfig) (i : ℕ) : StationData :=
  cfg.stations.getD i ⟨0, 0, 0, 0⟩

/-- The `(lat, lon)` coordinates of station `i`. -/
def stationPoint (cfg : PlanConfig) (i : ℕ) : Point :=
  ⟨(stationAt cfg i).latitude, (stationAt cfg i).longitude⟩

/-- `closest_route_point_on_route_idx` for station `i` (utils.py lines
254-260). -/
def rejoinIdx (cfg : PlanConfig) (i : ℕ) : ℕ :=
  closestIdx cfg.d (stationPoint cfg i) cfg.route_geometry

/-- The route point at the rejoin index of station `i` (its geodesically
nearest route point, so `cfg.d (stationPoint cfg i) (rejoinPoint cfg i)`
is the `min_dist_to_rp` of the source). -/
def rejoinPoint (cfg : PlanConfig) (i : ℕ) : Point :=
  cfg.route_geometry.getD (rejoinIdx cfg i) ⟨0, 0⟩

/-- The rejection pipeline of utils.py lines 241-283 for one candidate
station index: reachability (`dist > current_range → continue`), the
on-route check (`min_dist_to_rp < search_radius_miles`), the forward
check (`closest_idx >= current_idx`), and the detour-affordability check
(`detour_dist <= current_range`), where
`detour_dist = d(loc, station) + d(station, rejoin point)`. -/
def mkCandidate (cfg : PlanConfig) (loc : Point) (range : ℚ) (curIdx : ℕ)
    (i : ℕ) : Option Candidate :=
  if range < cfg.d loc (stationPoint cfg i) then none
  else if cfg.d (stationPoint cfg i) (rejoinPoint cfg i) < search_radius_miles ∧
      curIdx ≤ rejoinIdx cfg i then
    if cfg.d loc (stationPoint cfg i) +
        cfg.d (stationPoint cfg i) (rejoinPoint cfg i) ≤ range then
      some ⟨i, cfg.d loc (stationPoint cfg i),
        (stationAt cfg i).fuel_price_per_gallon, rejoinIdx cfg i,
        cfg.d loc (stationPoint cfg i) +
          cfg.d (stationPoint cfg i) (rejoinPoint cfg i)⟩
    else none
  else none

/-- `viable_candidates` for one leg: the candidate indices that survive all
rejections, in candidate-set order. -/
def viable_candidates (cfg : PlanConfig) (loc : Point) (range : ℚ)
    (curIdx : ℕ) (candIdx : List ℕ) : List Candidate :=
  candIdx.filterMap (mkCandidate cfg loc range curIdx)

/-- The strict order of the sort key `(price, -route_point_idx)`
(utils.py line 291). -/
def keyLtB (a b : Candidate) : Bool :=
  decide (a.price < b.price) ||
    (decide (a.price = b.price) && decide (b.route_point_idx < a.route_point_idx))

/-- `viable_candidates.sort(key=...)` followed by `[0]`: the first element
with the lexicographically minimal key (Python's sort is stable, so the
head of the sorted list is the earliest minimal element). -/
def chooseBest : List Candidate → Option Candidate
  | [] => none
  | c :: cs => some (cs.foldl (fun best x => if keyLtB x best then x else best) c)

/-- One record appended to `optimal_stops` (utils.py lines 317-325); the
`location` display string is represented by the station index. -/
structure FuelStop where
  stationIdx : ℕ
  latitude : ℚ
  longitude : ℚ
  fuel_price_per_gallon : ℚ
  distance_from_start_miles : ℚ
  fuel_added_gallons : ℚ
  cost_at_this_stop : ℚ
deriving DecidableEq, Repr

/-- The mutable locals of one planning run. -/
structure SimState where
  optimal_stops : List FuelStop
  current_location : Point
  current_fuel_cost : ℚ
  current_range : ℚ
  current_route_point_idx : ℕ
  distance_traversed_along_route : ℚ
  total_trip_duration_seconds : ℚ
deriving DecidableEq, Repr

/-- `_get_average_fuel_price` (utils.py lines 351-361): mean of the
positive prices, `3.5` fallback when the data list or the valid-price list
is empty.  (The defensive `is not None` check of the source is vacuous
here since prices are total rationals.) -/
def _get_average_fuel_price (data : List StationData) : ℚ :=
  if data = [] then 35 / 10
  else if (data.map fun s => s.fuel_price_per_gallon).filter
      (fun p => decide (0 < p)) = [] then 35 / 10
  else ((data.map fun s => s.fuel_price_per_gallon).filter
      (fun p => decide (0 < p))).sum /
    ((data.map fun s => s.fuel_price_per_gallon).filter
      (fun p => decide (0 < p))).length

/-- `initial_fill_cost = (VEHICLE_RANGE_MILES / MILES_PER_GALLON) *
_get_average_fuel_price()` (utils.py line 159). -/
def initialFillCost (stations : List StationData) : ℚ :=
  (VEHICLE_RANGE_MILES / MILES_PER_GALLON) * _get_average_fuel_price stations

/-- `fuel_needed_for_fillup_gallons` after consuming the detour
(utils.py lines 299-304): refill from `current_range - detour` back to
capacity, clamped to non-negative. -/
def fuelNeeded (range detour : ℚ) : ℚ :=
  max 0 ((VEHICLE_RANGE_MILES - (range - detour)) / MILES_PER_GALLON)

/-- Applying the chosen stop (utils.py lines 293-341): consume the detour,
refill to capacity, record the stop, move to the station, advance the
route index to the rejoin index, and recompute the traversed distance. -/
def applyStop (cfg : PlanConfig) (s : SimState) (c : Candidate) : SimState :=
  { optimal_stops := s.optimal_stops ++
      [{ stationIdx := c.stationIdx
         latitude := (stationAt cfg c.stationIdx).latitude
         longitude := (stationAt cfg c.stationIdx).longitude
         fuel_price_per_gallon := (stationAt cfg c.stationIdx).fuel_price_per_gallon
         distance_from_start_miles :=
           round2 (s.distance_traversed_along_route + c.detour_distance)
         fuel_added_gallons := round2 (fuelNeeded s.current_range c.detour_distance)
         cost_at_this_stop := round2 (fuelNeeded s.current_range c.detour_distance *
           (stationAt cfg c.stationIdx).fuel_price_per_gallon) }]
    current_location := ⟨(stationAt cfg c.stationIdx).latitude,
      (stationAt cfg c.stationIdx).longitude⟩
    current_fuel_cost := s.current_fuel_cost +
      fuelNeeded s.current_range c.detour_distance *
        (stationAt cfg c.stationIdx).fuel_price_per_gallon
    current_range := VEHICLE_RANGE_MILES
    current_route_point_idx := c.route_point_idx
    distance_traversed_along_route :=
      distUpTo cfg.d cfg.route_geometry c.route_point_idx
    total_trip_duration_seconds :=
      s.total_trip_duration_seconds + (c.detour_distance / 40) * 3600 }

/-- The three exits of one iteration of the main loop body:
`finished` is the `break` on sufficient fuel (line 199), `stuck` is either
`break` on an empty candidate set (line 237) or on an empty viable list
(line 287), and `next` continues with the updated state. -/
inductive StepOutcome where
  | finished (s : SimState)
  | stuck (s : SimState)
  | next (s : SimState)
deriving DecidableEq, Repr

/-- The `unique_candidate_station_indices` local of one loop iteration:
the KD-tree query over the lookahead window of the current state, with
`effective_range_for_planning = current_range - FUEL_BUFFER_MILES`
(utils.py lines 186, 204-232). -/
def candidateIndices (cfg : PlanConfig) (s : SimState) : List ℕ :=
  unique_candidate_station_indices (stationCoords cfg.stations)
    (lookaheadPoints cfg.d cfg.route_geometry s.current_route_point_idx
      (s.current_range - FUEL_BUFFER_MILES))
    search_radius_degrees

/-- One iteration of the body of the `while` loop of
`find_optimal_fuel_stops` (utils.py lines 184-342). -/
def stepSim (cfg : PlanConfig) (s : SimState) : StepOutcome :=
  if distToEndFrom cfg.d cfg.route_geometry s.current_route_point_idx ≤
      s.current_range then .finished s
  else if (candidateIndices cfg s).isEmpty then .stuck s
  else
    match chooseBest (viable_candidates cfg s.current_location
        s.current_range s.current_route_point_idx (candidateIndices cfg s)) with
    | none => .stuck s
    | some c => .next (applyStop cfg s c)

/-- The `while distance_traversed_along_route < total_distance_miles` loop,
with an explicit iteration budget `fuel` (`none` = the budget ran out
before the loop exited).  The boolean records whether the loop exited
through one of the two failure `break`s. -/
def runLoop (cfg : PlanConfig) : ℕ → SimState → Option (SimState × Bool)
  | 0, _ => none
  | n + 1, s =>
      if s.distance_traversed_along_route < cfg.total_distance_miles then
        match stepSim cfg s with
        | .finished s' => some (s', false)
        | .stuck s' => some (s', true)
        | .next s' => runLoop cfg n s'
      else some (s, false)

/-- The state after the initialization block of `find_optimal_fuel_stops`
(utils.py lines 152-182): initial fill charged at the average price, route
index at the route point nearest `start_coords`, traversed distance
recomputed up to that index. -/
def initState (cfg : PlanConfig) : SimState :=
  { optimal_stops := []
    current_location := cfg.start_coords
    current_fuel_cost := initialFillCost cfg.stations
    current_range := VEHICLE_RANGE_MILES
    current_route_point_idx := closestIdx cfg.d cfg.start_coords cfg.route_geometry
    distance_traversed_along_route := distUpTo cfg.d cfg.route_geometry
      (closestIdx cfg.d cfg.start_coords cfg.route_geometry)
    total_trip_duration_seconds := 0 }

/-- The full run of the simulation with its exit flag. -/
def find_run (cfg : PlanConfig) (fuel : ℕ) : Option (SimState × Bool) :=
  runLoop cfg fuel (initState cfg)

/-- `find_optimal_fuel_stops` (utils.py lines 140-349).  The guard at line
148 returns `[], 0, 0` on an empty route or empty station data (a missing
KD-tree coincides with empty data for every state the loader produces);
otherwise the returned triple is
`(optimal_stops, current_fuel_cost, total_trip_duration_seconds)`. -/
def find_optimal_fuel_stops (cfg : PlanConfig) (fuel : ℕ) :
    Option (List FuelStop × ℚ × ℚ) :=
  if cfg.route_geometry = [] ∨ cfg.stations = [] then some ([], 0, 0)
  else (find_run cfg fuel).map fun sb =>
    (sb.1.optimal_stops, sb.1.current_fuel_cost, sb.1.total_trip_duration_seconds)

/-! ### The catalog loader (`load_fuel_prices`, utils.py lines 26-65) -/

/-- One row of the `FuelStation` database table (models.py): nullable
geocoded coordinates, a price, and a primary key. -/
structure DbFuelStation where
  latitude : Option ℚ
  longitude : Option ℚ
  retail_price : ℚ
  pk : ℕ
deriving DecidableEq, Repr

/-- The three module-level globals of utils.py: `FUEL_STATIONS_DATA`,
`FUEL_STATIONS_KDTREE` and `FUEL_STATIONS_COORDS` (the KD-tree is
represented by the point set it indexes). -/
structure CatalogState where
  FUEL_STATIONS_DATA : List StationData
  FUEL_STATIONS_KDTREE : Option (List Point)
  FUEL_STATIONS_COORDS : Option (List Point)
deriving DecidableEq, Repr

/-- A row is kept only when both coordinates are present (utils.py lines
40-53); rows with a missing coordinate are skipped with a warning. -/
def loadRow (r : DbFuelStation) : Option StationData :=
  match r.latitude, r.longitude with
  | some la, some lo => some ⟨la, lo, r.retail_price, r.pk⟩
  | _, _ => none

/-- `load_fuel_prices` with an explicit fault model for the `try` block:
`failAt = some k` means an exception is raised inside the `try` after
exactly `min k rows.length` rows have been read (for `k ≥ rows.length`
this is a failure of the subsequent array/KD-tree construction).  Returns
the new global state together with the function's return value — the local
`data` list, which on the exception path still holds the records
accumulated before the failure while the globals are reset to
`[]`/`None`/`None` (utils.py lines 60-65). -/
def load_fuel_prices (st : CatalogState) (rows : List DbFuelStation)
    (failAt : Option ℕ) : CatalogState × List StationData :=
  if st.FUEL_STATIONS_DATA ≠ [] then (st, st.FUEL_STATIONS_DATA)
  else
    match failAt with
    | none =>
        ({ FUEL_STATIONS_DATA := rows.filterMap loadRow
           FUEL_STATIONS_KDTREE := some ((rows.filterMap loadRow).map
             fun s => (⟨s.latitude, s.longitude⟩ : Point))
           FUEL_STATIONS_COORDS := some ((rows.filterMap loadRow).map
             fun s => (⟨s.latitude, s.longitude⟩ : Point)) },
          rows.filterMap loadRow)
    | some k =>
        ({ FUEL_STATIONS_DATA := []
           FUEL_STATIONS_KDTREE := none
           FUEL_STATIONS_COORDS := none },
          (rows.take k).filterMap loadRow)

/-! ### Concrete instances

`mdist` stands in for the geodesic on concrete scenarios: 69 miles per
degree in the L1 norm, which agrees with the true geodesic to within a
fraction of a percent on meridian-aligned pairs and is a genuine metric
(nonnegative, symmetric, zero on the diagonal, triangle inequality). -/

/-- Concrete stand-in for the geodesic distance, in miles. -/
def mdist (p q : Point) : ℚ := 69 * (|p.lat - q.lat| + |p.lon - q.lon|)

theorem mdist_nonneg (p q : Point) : 0 ≤ mdist p q := by
  have h1 : 0 ≤ |p.lat - q.lat| := abs_nonneg _
  have h2 : 0 ≤ |p.lon - q.lon| := abs_nonneg _
  unfold mdist
  nlinarith

/-! ### Scenario for C1: a stop is required but no station is anywhere
near the route.  Two-point meridian route of 600.3 miles (beyond the
500-mile range), one station at (40, 40), far outside the 50-mile search
radius of every route point. -/

/-- Route New-York-length leg with a single far-away station. -/
def noStationCfg : PlanConfig :=
  { route_geometry := [⟨0, 0⟩, ⟨87/10, 0⟩]
    total_distance_miles := 6003/10
    start_coords := ⟨0, 0⟩
    end_coords := ⟨87/10, 0⟩
    stations := [⟨40, 40, 4, 1⟩]
    d := mdist }

lemma noStationCfg_init : initState noStationCfg =
    ⟨[], ⟨0, 0⟩, 200, 500, 0, 0, 0⟩ := by
  norm_num [initState, noStationCfg, initialFillCost, _get_average_fuel_price,
    VEHICLE_RANGE_MILES, MILES_PER_GALLON, closestIdx, closestIdxGo, distUpTo,
    segmentDistances, routeSegments, mdist, abs_eq_max_neg, max_def,
    List.filter]

lemma noStationCfg_distToEnd0 :
    distToEndFrom mdist [⟨0, 0⟩, ⟨87/10, 0⟩] 0 = 6003/10 := by
  norm_num [distToEndFrom, segmentDistances, routeSegments, mdist,
    abs_eq_max_neg, max_def]

lemma noStationCfg_candIdx :
    candidateIndices noStationCfg ⟨[], ⟨0, 0⟩, 200, 500, 0, 0, 0⟩ = [] := by
  norm_num [candidateIndices, noStationCfg, lookaheadPoints, lookaheadGo,
    mdist, abs_eq_max_neg, max_def, FUEL_BUFFER_MILES,
    unique_candidate_station_indices, query_ball_point, stationCoords,
    search_radius_degrees, search_radius_miles, List.range_succ, List.filter]

lemma noStationCfg_step :
    stepSim noStationCfg ⟨[], ⟨0, 0⟩, 200, 500, 0, 0, 0⟩ =
      .stuck ⟨[], ⟨0, 0⟩, 200, 500, 0, 0, 0⟩ := by
  unfold stepSim
  rw [show noStationCfg.d = mdist from rfl,
    show noStationCfg.route_geometry = [⟨0, 0⟩, ⟨87/10, 0⟩] from rfl]
  rw [show (⟨[], ⟨0, 0⟩, 200, 500, 0, 0, 0⟩ : SimState).current_route_point_idx
      = 0 from rfl,
    show (⟨[], ⟨0, 0⟩, 200, 500, 0, 0, 0⟩ : SimState).current_range = 500
      from rfl]
  rw [noStationCfg_distToEnd0, if_neg (by norm_num), noStationCfg_candIdx]
  rfl

lemma noStationCfg_run :
    find_run noStationCfg 5 = some (⟨[], ⟨0, 0⟩, 200, 500, 0, 0, 0⟩, true) := by
  unfold find_run
  rw [noStationCfg_init]
  unfold runLoop
  rw [show (⟨[], ⟨0, 0⟩, 200, 500, 0, 0, 0⟩ : SimState).distance_traversed_along_route
      = 0 from rfl,
    show noStationCfg.total_distance_miles = 6003/10 from rfl]
  rw [if_pos (by norm_num), noStationCfg_step]

/-- C1: the spec demands a distinct `UnreachableError` when no candidate
survives, but the code merely `break`s out of the loop and returns the
accumulated stops and cost through the ordinary success channel: on a
route that needs a stop with no station near any lookahead point, the
run ends in the `stuck` break yet `find_optimal_fuel_stops` returns
`([], 200, 0)` — an empty stop list with a positive cost, structurally
identical to a genuine zero-stop success and not any distinct failure. -/
theorem c1_no_viable_candidate_returns_ordinary_triple :
    find_run noStationCfg 5 = some (⟨[], ⟨0, 0⟩, 200, 500, 0, 0, 0⟩, true) ∧
    find_optimal_fuel_stops noStationCfg 5 = some ([], 200, 0) := by
  refine ⟨noStationCfg_run, ?_⟩
  unfold find_optimal_fuel_stops
  rw [if_neg (by simp [noStationCfg]), noStationCfg_run]
  rfl

/-! ### Scenario for C2: the forward-progress constraint is non-strict
(`closest_route_point_on_route_idx >= current_route_point_idx`), so an
iteration can leave the simulated route index, location and range exactly
unchanged, and the loop then never terminates.  Same 600.3-mile route,
one cheap station 9.66 miles from the start whose rejoin index is 0. -/

/-- Route of 600.3 miles with a single station near the start point. -/
def loopCfg : PlanConfig :=
  { route_geometry := [⟨0, 0⟩, ⟨87/10, 0⟩]
    total_distance_miles := 6003/10
    start_coords := ⟨0, 0⟩
    end_coords := ⟨87/10, 0⟩
    stations := [⟨7/50, 0, 3, 1⟩]
    d := mdist }

lemma loopCfg_init : initState loopCfg = ⟨[], ⟨0, 0⟩, 150, 500, 0, 0, 0⟩ := by
  norm_num [initState, loopCfg, initialFillCost, _get_average_fuel_price,
    VEHICLE_RANGE_MILES, MILES_PER_GALLON, closestIdx, closestIdxGo, distUpTo,
    segmentDistances, routeSegments, mdist, abs_eq_max_neg, max_def,
    List.filter]

lemma loopCfg_distToEnd0 :
    distToEndFrom mdist [⟨0, 0⟩, ⟨87/10, 0⟩] 0 = 6003/10 := by
  norm_num [distToEndFrom, segmentDistances, routeSegments, mdist,
    abs_eq_max_neg, max_def]

lemma loopCfg_candIdx (stops : List FuelStop) (loc : Point) (cost dur : ℚ) :
    candidateIndices loopCfg ⟨stops, loc, cost, 500, 0, 0, dur⟩ = [0] := by
  norm_num [candidateIndices, loopCfg, lookaheadPoints, lookaheadGo, mdist,
    abs_eq_max_neg, max_def, FUEL_BUFFER_MILES,
    unique_candidate_station_indices, query_ball_point, stationCoords,
    search_radius_degrees, search_radius_miles, List.range_succ, List.filter]

lemma loopCfg_viable_start : viable_candidates loopCfg ⟨0, 0⟩ 500 0 [0] =
    [⟨0, 483/50, 3, 0, 483/25⟩] := by
  norm_num [viable_candidates, mkCandidate, loopCfg, stationAt, stationPoint,
    rejoinIdx, rejoinPoint, closestIdx, closestIdxGo, mdist, abs_eq_max_neg,
    max_def, search_radius_miles, List.filterMap]

lemma loopCfg_viable_station : viable_candidates loopCfg ⟨7/50, 0⟩ 500 0 [0] =
    [⟨0, 0, 3, 0, 483/50⟩] := by
  norm_num [viable_candidates, mkCandidate, loopCfg, stationAt, stationPoint,
    rejoinIdx, rejoinPoint, closestIdx, closestIdxGo, mdist, abs_eq_max_neg,
    max_def, search_radius_miles, List.filterMap]

lemma loopCfg_round_a : round2 (483/25) = 483/25 := by
  norm_num [round2, roundHalfEven]

lemma loopCfg_round_b : round2 (483/250) = 193/100 := by
  norm_num [round2, roundHalfEven, Int.even_iff]

lemma loopCfg_round_c : round2 (1449/250) = 29/5 := by
  norm_num [round2, roundHalfEven, Int.even_iff]

lemma loopCfg_round_d : round2 (483/50) = 483/50 := by
  norm_num [round2, roundHalfEven]

lemma loopCfg_round_e : round2 (483/500) = 97/100 := by
  norm_num [round2, roundHalfEven, Int.even_iff]

lemma loopCfg_round_f : round2 (1449/500) = 29/10 := by
  norm_num [round2, roundHalfEven, Int.even_iff]

lemma loopCfg_apply_start (stops : List FuelStop) (cost dur : ℚ) :
    applyStop loopCfg ⟨stops, ⟨0, 0⟩, cost, 500, 0, 0, dur⟩
      ⟨0, 483/50, 3, 0, 483/25⟩ =
      ⟨stops ++ [⟨0, 7/50, 0, 3, 483/25, 193/100, 29/5⟩],
        ⟨7/50, 0⟩, cost + 1449/250, 500, 0, 0, dur + 8694/5⟩ := by
  simp only [applyStop, fuelNeeded, VEHICLE_RANGE_MILES, MILES_PER_GALLON]
  norm_num [loopCfg, stationAt, loopCfg_round_a, loopCfg_round_b,
    loopCfg_round_c, distUpTo, segmentDistances, routeSegments]

lemma loopCfg_apply_station (stops : List FuelStop) (cost dur : ℚ) :
    applyStop loopCfg ⟨stops, ⟨7/50, 0⟩, cost, 500, 0, 0, dur⟩
      ⟨0, 0, 3, 0, 483/50⟩ =
      ⟨stops ++ [⟨0, 7/50, 0, 3, 483/50, 97/100, 29/10⟩],
        ⟨7/50, 0⟩, cost + 1449/500, 500, 0, 0, dur + 4347/5⟩ := by
  simp only [applyStop, fuelNeeded, VEHICLE_RANGE_MILES, MILES_PER_GALLON]
  norm_num [loopCfg, stationAt, loopCfg_round_d, loopCfg_round_e,
    loopCfg_round_f, distUpTo, segmentDistances, routeSegments]

lemma loopCfg_step_start (stops : List FuelStop) (cost dur : ℚ) :
    stepSim loopCfg ⟨stops, ⟨0, 0⟩, cost, 500, 0, 0, dur⟩ =
      .next ⟨stops ++ [⟨0, 7/50, 0, 3, 483/25, 193/100, 29/5⟩],
        ⟨7/50, 0⟩, cost + 1449/250, 500, 0, 0, dur + 8694/5⟩ := by
  unfold stepSim
  rw [show loopCfg.d = mdist from rfl,
    show loopCfg.route_geometry = [⟨0, 0⟩, ⟨87/10, 0⟩] from rfl]
  rw [show (⟨stops, ⟨0, 0⟩, cost, 500, 0, 0, dur⟩ : SimState).current_route_point_idx
      = 0 from rfl,
    show (⟨stops, ⟨0, 0⟩, cost, 500, 0, 0, dur⟩ : SimState).current_range = 500
      from rfl,
    show (⟨stops, ⟨0, 0⟩, cost, 500, 0, 0, dur⟩ : SimState).current_location
      = ⟨0, 0⟩ from rfl]
  rw [loopCfg_distToEnd0, if_neg (by norm_num), loopCfg_candIdx,
    if_neg (by simp), loopCfg_viable_start]
  show StepOutcome.next (applyStop loopCfg ⟨stops, ⟨0, 0⟩, cost, 500, 0, 0, dur⟩
    ⟨0, 483/50, 3, 0, 483/25⟩) = _
  rw [loopCfg_apply_start]

lemma loopCfg_step_station (stops : List FuelStop) (cost dur : ℚ) :
    stepSim loopCfg ⟨stops, ⟨7/50, 0⟩, cost, 500, 0, 0, dur⟩ =
      .next ⟨stops ++ [⟨0, 7/50, 0, 3, 483/50, 97/100, 29/10⟩],
        ⟨7/50, 0⟩, cost + 1449/500, 500, 0, 0, dur + 4347/5⟩ := by
  unfold stepSim
  rw [show loopCfg.d = mdist from rfl,
    show loopCfg.route_geometry = [⟨0, 0⟩, ⟨87/10, 0⟩] from rfl]
  rw [show (⟨stops, ⟨7/50, 0⟩, cost, 500, 0, 0, dur⟩ : SimState).current_route_point_idx
      = 0 from rfl,
    show (⟨stops, ⟨7/50, 0⟩, cost, 500, 0, 0, dur⟩ : SimState).current_range = 500
      from rfl,
    show (⟨stops, ⟨7/50, 0⟩, cost, 500, 0, 0, dur⟩ : SimState).current_location
      = ⟨7/50, 0⟩ from rfl]
  rw [loopCfg_distToEnd0, if_neg (by norm_num), loopCfg_candIdx,
    if_neg (by simp), loopCfg_viable_station]
  show StepOutcome.next (applyStop loopCfg ⟨stops, ⟨7/50, 0⟩, cost, 500, 0, 0, dur⟩
    ⟨0, 0, 3, 0, 483/50⟩) = _
  rw [loopCfg_apply_station]

/-- Once the simulation sits at the station with a full tank at route
index 0, every further iteration re-chooses the same station: the loop
budget is exhausted for every `n`. -/
lemma loopCfg_noTerm (n : ℕ) : ∀ stops cost dur,
    runLoop loopCfg n ⟨stops, ⟨7/50, 0⟩, cost, 500, 0, 0, dur⟩ = none := by
  induction n with
  | zero => intro stops cost dur; rfl
  | succ n ih =>
      intro stops cost dur
      rw [runLoop]
      rw [show (⟨stops, ⟨7/50, 0⟩, cost, 500, 0, 0, dur⟩ : SimState).distance_traversed_along_route
          = 0 from rfl,
        show loopCfg.total_distance_miles = 6003/10 from rfl]
      rw [if_pos (by norm_num), loopCfg_step_station]
      exact ih _ _ _

/-- C2: the claim that each iteration either finishes the trip or strictly
advances the route index — and hence that the loop terminates — is false:
the forward check is non-strict (`>=`), so on `loopCfg` the iteration from
the station leaves (location, range, index, traversed distance) unchanged
and the loop runs forever for every iteration budget. -/
theorem c2_loop_does_not_terminate (n : ℕ) :
    find_run loopCfg n = none ∧ find_optimal_fuel_stops loopCfg n = none := by
  have hrun : find_run loopCfg n = none := by
    unfold find_run
    rw [loopCfg_init]
    cases n with
    | zero => rfl
    | succ n =>
        rw [runLoop]
        rw [show (⟨[], ⟨0, 0⟩, 150, 500, 0, 0, 0⟩ : SimState).distance_traversed_along_route
            = 0 from rfl,
          show loopCfg.total_distance_miles = 6003/10 from rfl]
        rw [if_pos (by norm_num), loopCfg_step_start]
        exact loopCfg_noTerm n _ _ _
  refine ⟨hrun, ?_⟩
  unfold find_optimal_fuel_stops
  rw [if_neg (by simp [loopCfg]), hrun]
  rfl

/-! ### C3: behaviour on violated preconditions -/

/-- An empty route geometry with a non-empty catalog. -/
def emptyRouteCfg : PlanConfig :=
  { route_geometry := []
    total_distance_miles := 100
    start_coords := ⟨0, 0⟩
    end_coords := ⟨1, 1⟩
    stations := [⟨1, 1, 3, 1⟩]
    d := mdist }

/-- A non-empty route with an empty catalog. -/
def emptyCatalogCfg : PlanConfig :=
  { route_geometry := [⟨0, 0⟩, ⟨1, 0⟩]
    total_distance_miles := 69
    start_coords := ⟨0, 0⟩
    end_coords := ⟨1, 0⟩
    stations := []
    d := mdist }

/-- C3: the claim that violated preconditions fail fast with
`InvalidRouteError` / `DataUnavailableError` and never silently return an
empty plan is false — on an empty route (catalog non-empty) the function
returns `([], 0, 0)` through the ordinary success channel; no error value
of any kind exists in `find_optimal_fuel_stops`. -/
theorem c3_empty_route_returns_silent_empty_plan :
    find_optimal_fuel_stops emptyRouteCfg 5 = some ([], 0, 0) := by
  unfold find_optimal_fuel_stops
  rw [if_pos (show emptyRouteCfg.route_geometry = [] ∨ emptyRouteCfg.stations = []
    from Or.inl rfl)]

/-- C3 (amended): on an empty route or an empty catalog the guard at
utils.py line 148 immediately returns the plain triple `([], 0, 0)` — it
does fail fast (no simulation runs), but through a silent empty plan with
zero cost rather than a distinct error. -/
theorem c3_amended_guard_returns_empty_triple (cfg : PlanConfig) (fuel : ℕ)
    (h : cfg.route_geometry = [] ∨ cfg.stations = []) :
    find_optimal_fuel_stops cfg fuel = some ([], 0, 0) := by
  unfold find_optimal_fuel_stops
  rw [if_pos h]

/-- Witness for the amended C3 at a concrete input: an empty catalog. -/
theorem c3_amended_witness :
    find_optimal_fuel_stops emptyCatalogCfg 7 = some ([], 0, 0) :=
  c3_amended_guard_returns_empty_triple emptyCatalogCfg 7 (Or.inr rfl)

/-! ### C9: determinism -/

/-- A small config used to witness determinism. -/
def detCfg : PlanConfig :=
  { route_geometry := [⟨0, 0⟩, ⟨2, 0⟩]
    total_distance_miles := 138
    start_coords := ⟨0, 0⟩
    end_coords := ⟨2, 0⟩
    stations := [⟨1, 0, 3, 1⟩]
    d := mdist }

/-- C9: the planner is a pure function of its inputs — two runs whose
route geometry, total distance, start/end coordinates, catalog snapshot
and distance function agree produce identical stop sequences, total cost
and total detour duration (and identical raw runs). -/
theorem c9_plan_deterministic (cfg₁ cfg₂ : PlanConfig) (fuel : ℕ)
    (hroute : cfg₁.route_geometry = cfg₂.route_geometry)
    (htot : cfg₁.total_distance_miles = cfg₂.total_distance_miles)
    (hstart : cfg₁.start_coords = cfg₂.start_coords)
    (hend : cfg₁.end_coords = cfg₂.end_coords)
    (hstations : cfg₁.stations = cfg₂.stations)
    (hd : cfg₁.d = cfg₂.d) :
    find_optimal_fuel_stops cfg₁ fuel = find_optimal_fuel_stops cfg₂ fuel ∧
    find_run cfg₁ fuel = find_run cfg₂ fuel := by
  cases cfg₁
  cases cfg₂
  simp only at hroute htot hstart hend hstations hd
  subst hroute htot hstart hend hstations hd
  exact ⟨rfl, rfl⟩

/-- Witness for C9 at a concrete input. -/
theorem c9_witness :
    find_optimal_fuel_stops detCfg 3 = find_optimal_fuel_stops detCfg 3 :=
  (c9_plan_deterministic detCfg detCfg 3 rfl rfl rfl rfl rfl rfl).1

/-! ### C10: partial catalog load on an exception -/

/-- C10: when reading station records raises partway through a load that
started from an empty catalog, the module globals are left with no partial
entries (`FUEL_STATIONS_DATA = []`, KD-tree and coordinate array `None`),
yet the function still returns the locally accumulated list of records
read before the failure — so the caller's return value and the global
state can disagree. -/
theorem c10_exception_clears_globals_but_returns_partial_list
    (st : CatalogState) (rows : List DbFuelStation) (k : ℕ)
    (h : st.FUEL_STATIONS_DATA = []) :
    load_fuel_prices st rows (some k) =
      (⟨[], none, none⟩, (rows.take k).filterMap loadRow) := by
  unfold load_fuel_prices
  rw [if_neg (by simp [h])]

/-- Witness for C10: two valid rows and one with a missing coordinate;
the exception hits after two rows, the globals end cleared while the
return value carries the one valid record read before the failure. -/
theorem c10_witness :
    load_fuel_prices ⟨[], none, none⟩
      [⟨some 1, some 2, 3, 1⟩, ⟨some 0, none, 9, 2⟩, ⟨some 4, some 5, 6, 3⟩]
      (some 2) = (⟨[], none, none⟩, [⟨1, 2, 3, 1⟩]) := by
  rw [c10_exception_clears_globals_but_returns_partial_list _ _ _ rfl]
  rfl

/-! ### C8: properties of the KD-tree ball query and the candidate union -/

lemma query_ball_point_nodup (coords : List Point) (x : Point) (r : ℚ) :
    (query_ball_point coords x r).Nodup :=
  (List.nodup_range _).filter _

lemma mem_query_ball_point {coords : List Point} {x : Point} {r : ℚ} {i : ℕ} :
    i ∈ query_ball_point coords x r ↔
      i < coords.length ∧ 0 ≤ r ∧
        ((coords.getD i ⟨0, 0⟩).lat - x.lat) ^ 2 +
          ((coords.getD i ⟨0, 0⟩).lon - x.lon) ^ 2 ≤ r ^ 2 := by
  simp [query_ball_point, List.mem_filter, List.mem_range,
    decide_eq_true_eq]

lemma unique_candidate_station_indices_go_nodup (coords : List Point)
    (r : ℚ) (pts : List Point) (acc : List ℕ) (hacc : acc.Nodup) :
    (pts.foldl
      (fun acc p => acc ++ (query_ball_point coords p r).filter
        (fun i => decide (i ∉ acc)))
      acc).Nodup := by
  induction pts generalizing acc with
  | nil => exact hacc
  | cons p ps ih =>
      refine ih _ (List.Nodup.append hacc
        ((query_ball_point_nodup coords p r).filter _) ?_)
      intro a ha hb
      have := List.of_mem_filter hb
      simp only [decide_eq_true_eq] at this
      exact this ha

/-- C8: the KD-tree ball query returns a duplicate-free index list, the
union over the lookahead points (`unique_candidate_station_indices`) is
duplicate-free, and the query is monotone in the radius: every index
returned at radius `r` is also returned at radius `2 * r`. -/
theorem c8_nearby_query_properties :
    (∀ (coords : List Point) (x : Point) (r : ℚ),
      (query_ball_point coords x r).Nodup) ∧
    (∀ (coords : List Point) (pts : List Point) (r : ℚ),
      (unique_candidate_station_indices coords pts r).Nodup) ∧
    (∀ (coords : List Point) (x : Point) (r : ℚ) (i : ℕ),
      i ∈ query_ball_point coords x r → i ∈ query_ball_point coords x (2 * r)) := by
  refine ⟨fun coords x r => query_ball_point_nodup coords x r,
    fun coords pts r =>
      unique_candidate_station_indices_go_nodup coords r pts [] List.nodup_nil,
    fun coords x r i hi => ?_⟩
  rw [mem_query_ball_point] at hi ⊢
  obtain ⟨hlen, hr, hsq⟩ := hi
  refine ⟨hlen, by linarith, ?_⟩
  have h4 : r ^ 2 ≤ (2 * r) ^ 2 := by nlinarith
  linarith

/-- Witness for C8's radius monotonicity at a concrete input. -/
theorem c8_witness : (0 : ℕ) ∈ query_ball_point [⟨0, 0⟩] ⟨0, 0⟩ (2 * 1) :=
  c8_nearby_query_properties.2.2 [⟨0, 0⟩] ⟨0, 0⟩ 1 0
    (by rw [mem_query_ball_point]; norm_num)

/-! ### C4: trips within range need no stop -/

lemma sum_drop_le_sum (l : List ℚ) (k : ℕ) (h : ∀ x ∈ l, 0 ≤ x) :
    (l.drop k).sum ≤ l.sum := by
  have hsplit : (l.take k).sum + (l.drop k).sum = l.sum := by
    rw [← List.sum_append, List.take_append_drop]
  have htake : 0 ≤ (l.take k).sum :=
    List.sum_nonneg fun x hx => h x (List.mem_of_mem_take hx)
  linarith

lemma distToEndFrom_le_routeTotal (d : Point → Point → ℚ) (route : List Point)
    (k : ℕ) (hd : ∀ p q, 0 ≤ d p q) :
    distToEndFrom d route k ≤ routeTotal d route := by
  refine sum_drop_le_sum _ _ ?_
  intro x hx
  simp only [segmentDistances, List.mem_map] at hx
  obtain ⟨pq, _, rfl⟩ := hx
  exact hd _ _

/-- C4: on every valid input (non-empty route, non-empty catalog, a
nonnegative metric, polyline length consistent with the reported total)
whose total distance is within `VEHICLE_RANGE_MILES`, the planner returns
zero stops and a total cost of exactly the initial fill:
`(rangeMiles / milesPerGallon) * mean valid station price` (with the 3.5
fallback built into `_get_average_fuel_price`).  The degenerate
`totalDistance = 0` satisfies the hypotheses. -/
theorem c4_short_trip_zero_stops_initial_fill_only (cfg : PlanConfig) (n : ℕ)
    (hroute : cfg.route_geometry ≠ []) (hstations : cfg.stations ≠ [])
    (hd : ∀ p q, 0 ≤ cfg.d p q)
    (hpoly : routeTotal cfg.d cfg.route_geometry ≤ cfg.total_distance_miles)
    (htot : cfg.total_distance_miles ≤ VEHICLE_RANGE_MILES) :
    find_optimal_fuel_stops cfg (n + 1) =
      some ([], (VEHICLE_RANGE_MILES / MILES_PER_GALLON) *
        _get_average_fuel_price cfg.stations, 0) := by
  unfold find_optimal_fuel_stops
  rw [if_neg (not_or.mpr ⟨hroute, hstations⟩)]
  unfold find_run
  rw [runLoop]
  by_cases hg : (initState cfg).distance_traversed_along_route <
      cfg.total_distance_miles
  · rw [if_pos hg]
    have hfin : stepSim cfg (initState cfg) = .finished (initState cfg) := by
      unfold stepSim
      rw [if_pos ?_]
      calc distToEndFrom cfg.d cfg.route_geometry
            (initState cfg).current_route_point_idx
          ≤ routeTotal cfg.d cfg.route_geometry :=
            distToEndFrom_le_routeTotal _ _ _ hd
        _ ≤ cfg.total_distance_miles := hpoly
        _ ≤ (initState cfg).current_range := htot
    rw [hfin]
    rfl
  · rw [if_neg hg]
    rfl

/-- A degenerate zero-distance trip with one 4-dollar station. -/
def shortTripCfg : PlanConfig :=
  { route_geometry := [⟨0, 0⟩]
    total_distance_miles := 0
    start_coords := ⟨0, 0⟩
    end_coords := ⟨0, 0⟩
    stations := [⟨1, 1, 4, 1⟩]
    d := mdist }

/-- Witness for C4: the `totalDistance = 0` scenario — zero stops, cost
equal to the initial fill `50 gallons * 4 = 200`. -/
theorem c4_witness : find_optimal_fuel_stops shortTripCfg 1 = some ([], 200, 0) := by
  have h := c4_short_trip_zero_stops_initial_fill_only shortTripCfg 0
    (by simp [shortTripCfg]) (by simp [shortTripCfg])
    (fun p q => mdist_nonneg p q)
    (by norm_num [routeTotal, segmentDistances, routeSegments, shortTripCfg])
    (by norm_num [shortTripCfg, VEHICLE_RANGE_MILES])
  rw [h]
  norm_num [_get_average_fuel_price, shortTripCfg, VEHICLE_RANGE_MILES,
    MILES_PER_GALLON, List.filter]

/-! ### C5: selection policy — cheapest price, then farthest rejoin index

The sort key of the source is `(price, -route_point_idx)`; `keyLe a b`
states that `a`'s key is at most `b`'s. -/

def keyLe (a b : Candidate) : Prop :=
  a.price < b.price ∨ (a.price = b.price ∧ b.route_point_idx ≤ a.route_point_idx)

lemma keyLe_refl (a : Candidate) : keyLe a a := Or.inr ⟨rfl, le_refl _⟩

lemma keyLe_trans {a b c : Candidate} (h1 : keyLe a b) (h2 : keyLe b c) :
    keyLe a c := by
  rcases h1 with h1 | ⟨h1, h1b⟩ <;> rcases h2 with h2 | ⟨h2, h2b⟩
  · exact Or.inl (h1.trans h2)
  · exact Or.inl (h2 ▸ h1)
  · exact Or.inl (h1 ▸ h2)
  · exact Or.inr ⟨h1.trans h2, h2b.trans h1b⟩

lemma keyLtB_true {a b : Candidate} (h : keyLtB a b = true) : keyLe a b := by
  simp only [keyLtB, Bool.or_eq_true, Bool.and_eq_true, decide_eq_true_eq] at h
  rcases h with h | ⟨h1, h2⟩
  · exact Or.inl h
  · exact Or.inr ⟨h1, le_of_lt h2⟩

lemma keyLtB_false {a b : Candidate} (h : keyLtB a b = false) : keyLe b a := by
  simp only [keyLtB, Bool.or_eq_false_iff, Bool.and_eq_false_iff,
    decide_eq_false_iff_not] at h
  obtain ⟨h1, h2⟩ := h
  rcases lt_trichotomy b.price a.price with hlt | heq | hgt
  · exact Or.inl hlt
  · refine Or.inr ⟨heq, ?_⟩
    rcases h2 with h2 | h2
    · exact absurd heq.symm h2
    · exact not_lt.mp h2
  · exact absurd hgt h1

/-- The running fold of `chooseBest` yields an element of the list whose
key is minimal (the earliest such element, matching the head of Python's
stable sort). -/
lemma foldl_pick_spec (cs : List Candidate) : ∀ c : Candidate,
    (cs.foldl (fun best x => if keyLtB x best then x else best) c) ∈ c :: cs ∧
    ∀ y ∈ c :: cs,
      keyLe (cs.foldl (fun best x => if keyLtB x best then x else best) c) y := by
  induction cs with
  | nil =>
      intro c
      refine ⟨List.mem_singleton_self c, ?_⟩
      intro y hy
      rw [List.mem_singleton] at hy
      subst hy
      exact keyLe_refl _
  | cons x rest ih =>
      intro c
      simp only [List.foldl_cons]
      obtain ⟨hmem, hmin⟩ := ih (if keyLtB x c = true then x else c)
      have hpmem : (if keyLtB x c = true then x else c) = x ∨
          (if keyLtB x c = true then x else c) = c := by
        by_cases hb : keyLtB x c = true <;> simp [hb]
      have hpc : keyLe (if keyLtB x c = true then x else c) c := by
        by_cases hb : keyLtB x c = true
        · simpa [hb] using keyLtB_true hb
        · have hb2 : keyLtB x c = false := by simpa using hb
          simpa [hb2] using keyLe_refl c
      have hpx : keyLe (if keyLtB x c = true then x else c) x := by
        by_cases hb : keyLtB x c = true
        · simpa [hb] using keyLe_refl x
        · have hb2 : keyLtB x c = false := by simpa using hb
          simpa [hb2] using keyLtB_false hb2
      have hfp : keyLe
          (rest.foldl (fun best x => if keyLtB x best then x else best)
            (if keyLtB x c = true then x else c))
          (if keyLtB x c = true then x else c) :=
        hmin _ (List.mem_cons_self _ _)
      refine ⟨?_, ?_⟩
      · rcases List.mem_cons.mp hmem with h | h
        · rcases hpmem with hp | hp
          · rw [h, hp]
            exact List.mem_cons_of_mem _ (List.mem_cons_self _ _)
          · rw [h, hp]
            exact List.mem_cons_self _ _
        · exact List.mem_cons_of_mem _ (List.mem_cons_of_mem _ h)
      · intro y hy
        rcases List.mem_cons.mp hy with h | h
        · subst h
          exact keyLe_trans hfp hpc
        · rcases List.mem_cons.mp h with h2 | h2
          · subst h2
            exact keyLe_trans hfp hpx
          · exact hmin _ (List.mem_cons_of_mem _ h2)

lemma chooseBest_spec {l : List Candidate} {c : Candidate}
    (h : chooseBest l = some c) : c ∈ l ∧ ∀ y ∈ l, keyLe c y := by
  cases l with
  | nil => simp [chooseBest] at h
  | cons c0 cs =>
      simp only [chooseBest, Option.some.injEq] at h
      obtain ⟨hmem, hmin⟩ := foldl_pick_spec cs c0
      subst h
      exact ⟨hmem, hmin⟩

/-- An iteration that applies a stop does so through `chooseBest` on the
viable candidate list, and continues from `applyStop` on the chosen
candidate. -/
lemma stepSim_next_inv {cfg : PlanConfig} {s s' : SimState}
    (h : stepSim cfg s = .next s') :
    ∃ c, chooseBest (viable_candidates cfg s.current_location s.current_range
        s.current_route_point_idx (candidateIndices cfg s)) = some c ∧
      s' = applyStop cfg s c := by
  unfold stepSim at h
  by_cases h1 : distToEndFrom cfg.d cfg.route_geometry
      s.current_route_point_idx ≤ s.current_range
  · rw [if_pos h1] at h
    exact absurd h (by simp)
  · rw [if_neg h1] at h
    by_cases h2 : (candidateIndices cfg s).isEmpty = true
    · rw [if_pos h2] at h
      exact absurd h (by simp)
    · rw [if_neg h2] at h
      cases hm : chooseBest (viable_candidates cfg s.current_location
          s.current_range s.current_route_point_idx (candidateIndices cfg s)) with
      | none =>
          rw [hm] at h
          exact absurd h (by simp)
      | some c =>
          rw [hm] at h
          have h3 : StepOutcome.next (applyStop cfg s c) = .next s' := h
          injection h3 with h4
          exact ⟨c, rfl, h4.symm⟩

/-- C5: whenever an iteration selects a stop, the chosen candidate has the
minimum price among all surviving candidates, and among equally-priced
survivors its rejoin route-index is the largest. -/
theorem c5_min_price_then_farthest_forward (cfg : PlanConfig) (s s' : SimState)
    (h : stepSim cfg s = .next s') :
    ∃ c, chooseBest (viable_candidates cfg s.current_location s.current_range
        s.current_route_point_idx (candidateIndices cfg s)) = some c ∧
      c ∈ viable_candidates cfg s.current_location s.current_range
        s.current_route_point_idx (candidateIndices cfg s) ∧
      (∀ x ∈ viable_candidates cfg s.current_location s.current_range
        s.current_route_point_idx (candidateIndices cfg s), c.price ≤ x.price) ∧
      (∀ x ∈ viable_candidates cfg s.current_location s.current_range
        s.current_route_point_idx (candidateIndices cfg s),
        x.price = c.price → x.route_point_idx ≤ c.route_point_idx) ∧
      s' = applyStop cfg s c := by
  obtain ⟨c, hm, happ⟩ := stepSim_next_inv h
  obtain ⟨hmem, hmin⟩ := chooseBest_spec hm
  refine ⟨c, hm, hmem, ?_, ?_, happ⟩
  · intro x hx
    rcases hmin x hx with h1 | ⟨h1, _⟩
    · exact le_of_lt h1
    · exact le_of_eq h1
  · intro x hx hpx
    rcases hmin x hx with h1 | ⟨_, h2⟩
    · exact absurd hpx (ne_of_gt h1)
    · exact h2

/-! The tie-break scenario of the spec: two stations at the identical
price 3, one rejoining at route index 0 and one farther forward at route
index 1 — the farther one must be chosen. -/

/-- 621-mile three-point route with two equally priced stations. -/
def tieCfg : PlanConfig :=
  { route_geometry := [⟨0, 0⟩, ⟨4, 0⟩, ⟨9, 0⟩]
    total_distance_miles := 621
    start_coords := ⟨0, 0⟩
    end_coords := ⟨9, 0⟩
    stations := [⟨0, 3/10, 3, 1⟩, ⟨4, 3/10, 3, 2⟩]
    d := mdist }

lemma tieCfg_init : initState tieCfg = ⟨[], ⟨0, 0⟩, 150, 500, 0, 0, 0⟩ := by
  norm_num [initState, tieCfg, initialFillCost, _get_average_fuel_price,
    VEHICLE_RANGE_MILES, MILES_PER_GALLON, closestIdx, closestIdxGo, distUpTo,
    segmentDistances, routeSegments, mdist, abs_eq_max_neg, max_def,
    List.filter]
  split_ifs <;> simp_all

lemma tieCfg_distToEnd0 :
    distToEndFrom mdist [⟨0, 0⟩, ⟨4, 0⟩, ⟨9, 0⟩] 0 = 621 := by
  norm_num [distToEndFrom, segmentDistances, routeSegments, mdist,
    abs_eq_max_neg, max_def]

lemma tieCfg_candIdx :
    candidateIndices tieCfg ⟨[], ⟨0, 0⟩, 150, 500, 0, 0, 0⟩ = [0, 1] := by
  norm_num [candidateIndices, tieCfg, lookaheadPoints, lookaheadGo, mdist,
    abs_eq_max_neg, max_def, FUEL_BUFFER_MILES,
    unique_candidate_station_indices, query_ball_point, stationCoords,
    search_radius_degrees, search_radius_miles, List.range_succ, List.filter]

lemma tieCfg_viable : viable_candidates tieCfg ⟨0, 0⟩ 500 0 [0, 1] =
    [⟨0, 207/10, 3, 0, 207/5⟩, ⟨1, 2967/10, 3, 1, 1587/5⟩] := by
  norm_num [viable_candidates, mkCandidate, tieCfg, stationAt, stationPoint,
    rejoinIdx, rejoinPoint, closestIdx, closestIdxGo, mdist, abs_eq_max_neg,
    max_def, search_radius_miles, List.filterMap]

lemma tieCfg_round_a : round2 (1587/5) = 1587/5 := by
  norm_num [round2, roundHalfEven]

lemma tieCfg_round_b : round2 (1587/50) = 1587/50 := by
  norm_num [round2, roundHalfEven]

lemma tieCfg_round_c : round2 (4761/50) = 4761/50 := by
  norm_num [round2, roundHalfEven]

lemma tieCfg_apply :
    applyStop tieCfg ⟨[], ⟨0, 0⟩, 150, 500, 0, 0, 0⟩ ⟨1, 2967/10, 3, 1, 1587/5⟩ =
      ⟨[⟨1, 4, 3/10, 3, 1587/5, 1587/50, 4761/50⟩],
        ⟨4, 3/10⟩, 12261/50, 500, 1, 276, 28566⟩ := by
  simp only [applyStop, fuelNeeded, VEHICLE_RANGE_MILES, MILES_PER_GALLON]
  norm_num [tieCfg, stationAt, tieCfg_round_a, tieCfg_round_b, tieCfg_round_c,
    distUpTo, segmentDistances, routeSegments, mdist, abs_eq_max_neg, max_def]

lemma tieCfg_step : stepSim tieCfg (initState tieCfg) =
    .next ⟨[⟨1, 4, 3/10, 3, 1587/5, 1587/50, 4761/50⟩],
      ⟨4, 3/10⟩, 12261/50, 500, 1, 276, 28566⟩ := by
  rw [tieCfg_init]
  unfold stepSim
  rw [show tieCfg.d = mdist from rfl,
    show tieCfg.route_geometry = [⟨0, 0⟩, ⟨4, 0⟩, ⟨9, 0⟩] from rfl]
  rw [show (⟨[], ⟨0, 0⟩, 150, 500, 0, 0, 0⟩ : SimState).current_route_point_idx
      = 0 from rfl,
    show (⟨[], ⟨0, 0⟩, 150, 500, 0, 0, 0⟩ : SimState).current_range = 500
      from rfl,
    show (⟨[], ⟨0, 0⟩, 150, 500, 0, 0, 0⟩ : SimState).current_location = ⟨0, 0⟩
      from rfl]
  rw [tieCfg_distToEnd0, if_neg (by norm_num), tieCfg_candIdx,
    if_neg (by simp), tieCfg_viable]
  rw [show chooseBest [⟨0, 207/10, 3, 0, 207/5⟩, ⟨1, 2967/10, 3, 1, 1587/5⟩] =
    some ⟨1, 2967/10, 3, 1, 1587/5⟩ from rfl]
  show StepOutcome.next (applyStop tieCfg ⟨[], ⟨0, 0⟩, 150, 500, 0, 0, 0⟩
    ⟨1, 2967/10, 3, 1, 1587/5⟩) = _
  rw [tieCfg_apply]

/-- Witness for C5: on `tieCfg` the iteration from the start selects the
equally-priced candidate with the larger rejoin index (station 2 at route
index 1, not station 1 at route index 0). -/
theorem c5_witness :
    ∃ c, chooseBest (viable_candidates tieCfg
        (initState tieCfg).current_location (initState tieCfg).current_range
        (initState tieCfg).current_route_point_idx
        (candidateIndices tieCfg (initState tieCfg))) = some c ∧
      c ∈ viable_candidates tieCfg (initState tieCfg).current_location
        (initState tieCfg).current_range
        (initState tieCfg).current_route_point_idx
        (candidateIndices tieCfg (initState tieCfg)) ∧
      (∀ x ∈ viable_candidates tieCfg (initState tieCfg).current_location
        (initState tieCfg).current_range
        (initState tieCfg).current_route_point_idx
        (candidateIndices tieCfg (initState tieCfg)), c.price ≤ x.price) ∧
      (∀ x ∈ viable_candidates tieCfg (initState tieCfg).current_location
        (initState tieCfg).current_range
        (initState tieCfg).current_route_point_idx
        (candidateIndices tieCfg (initState tieCfg)),
        x.price = c.price → x.route_point_idx ≤ c.route_point_idx) ∧
      (⟨[⟨1, 4, 3/10, 3, 1587/5, 1587/50, 4761/50⟩],
        ⟨4, 3/10⟩, 12261/50, 500, 1, 276, 28566⟩ : SimState) =
        applyStop tieCfg (initState tieCfg) c :=
  c5_min_price_then_farthest_forward tieCfg (initState tieCfg)
    ⟨[⟨1, 4, 3/10, 3, 1587/5, 1587/50, 4761/50⟩],
      ⟨4, 3/10⟩, 12261/50, 500, 1, 276, 28566⟩ tieCfg_step

/-! ### C7: no `-1` sentinel ever leaves `find_optimal_fuel_stops` -/

lemma avg_pos (data : List StationData) : 0 < _get_average_fuel_price data := by
  unfold _get_average_fuel_price
  split_ifs with h1 h2
  · norm_num
  · norm_num
  · apply div_pos
    · refine List.sum_pos _ ?_ h2
      intro x hx
      have := List.of_mem_filter hx
      simpa [decide_eq_true_eq] using this
    · have hlen : 0 < ((data.map fun s => s.fuel_price_per_gallon).filter
          (fun p => decide (0 < p))).length := List.length_pos.mpr h2
      exact_mod_cast hlen

lemma initialFillCost_pos (stations : List StationData) :
    0 < initialFillCost stations := by
  unfold initialFillCost VEHICLE_RANGE_MILES MILES_PER_GALLON
  nlinarith [avg_pos stations]

lemma mem_unique_lt_length {coords : List Point} {pts : List Point} {r : ℚ}
    {i : ℕ} (h : i ∈ unique_candidate_station_indices coords pts r) :
    i < coords.length := by
  unfold unique_candidate_station_indices at h
  have H : ∀ (ps : List Point) (acc : List ℕ), (∀ j ∈ acc, j < coords.length) →
      ∀ j ∈ ps.foldl
        (fun acc p => acc ++ (query_ball_point coords p r).filter
          (fun i => decide (i ∉ acc))) acc, j < coords.length := by
    intro ps
    induction ps with
    | nil => intro acc hacc j hj; exact hacc j hj
    | cons p rest ih =>
        intro acc hacc j hj
        refine ih _ ?_ j hj
        intro a ha
        rcases List.mem_append.mp ha with ha | ha
        · exact hacc a ha
        · have := List.mem_of_mem_filter ha
          rw [mem_query_ball_point] at this
          exact this.1
  exact H pts [] (by simp) i h

lemma mem_candidateIndices_lt {cfg : PlanConfig} {s : SimState} {i : ℕ}
    (h : i ∈ candidateIndices cfg s) : i < cfg.stations.length := by
  have := mem_unique_lt_length h
  simpa [stationCoords] using this

lemma viable_mem_inv {cfg : PlanConfig} {loc : Point} {range : ℚ} {curIdx : ℕ}
    {candIdx : List ℕ} {c : Candidate}
    (h : c ∈ viable_candidates cfg loc range curIdx candIdx) :
    ∃ i ∈ candIdx, mkCandidate cfg loc range curIdx i = some c := by
  simpa [viable_candidates, List.mem_filterMap] using h

/-- Inverting a successful candidate construction recovers the rejection
checks it passed. -/
lemma mkCandidate_some {cfg : PlanConfig} {loc : Point} {range : ℚ}
    {curIdx : ℕ} {i : ℕ} {c : Candidate}
    (h : mkCandidate cfg loc range curIdx i = some c) :
    c.stationIdx = i ∧ c.price = (stationAt cfg i).fuel_price_per_gallon ∧
    c.route_point_idx = rejoinIdx cfg i ∧ curIdx ≤ c.route_point_idx ∧
    c.detour_distance ≤ range := by
  unfold mkCandidate at h
  split_ifs at h with h1 h2 h3
  · injection h with h4
    subst h4
    exact ⟨rfl, rfl, rfl, h2.2, h3⟩

lemma stepSim_finished_inv {cfg : PlanConfig} {s s' : SimState}
    (h : stepSim cfg s = .finished s') : s' = s := by
  unfold stepSim at h
  split_ifs at h with h1 h2
  · injection h with h3
    exact h3.symm
  · cases hm : chooseBest (viable_candidates cfg s.current_location
        s.current_range s.current_route_point_idx (candidateIndices cfg s)) with
    | none => rw [hm] at h; exact absurd h (by simp)
    | some c => rw [hm] at h; exact absurd (show StepOutcome.next _ =
        .finished s' from h) (by simp)

lemma stepSim_stuck_inv {cfg : PlanConfig} {s s' : SimState}
    (h : stepSim cfg s = .stuck s') : s' = s := by
  unfold stepSim at h
  split_ifs at h with h1 h2
  · injection h with h3
    exact h3.symm
  · cases hm : chooseBest (viable_candidates cfg s.current_location
        s.current_range s.current_route_point_idx (candidateIndices cfg s)) with
    | none =>
        rw [hm] at h
        injection h with h3
        exact h3.symm
    | some c => rw [hm] at h; exact absurd (show StepOutcome.next _ =
        .stuck s' from h) (by simp)

lemma applyStop_cost_ge (cfg : PlanConfig) (s : SimState) (c : Candidate)
    (hp : ∀ st ∈ cfg.stations, 0 ≤ st.fuel_price_per_gallon)
    (hidx : c.stationIdx < cfg.stations.length) :
    s.current_fuel_cost ≤ (applyStop cfg s c).current_fuel_cost := by
  show s.current_fuel_cost ≤ s.current_fuel_cost +
    fuelNeeded s.current_range c.detour_distance *
      (stationAt cfg c.stationIdx).fuel_price_per_gallon
  have h1 : 0 ≤ fuelNeeded s.current_range c.detour_distance := le_max_left _ _
  have h2 : 0 ≤ (stationAt cfg c.stationIdx).fuel_price_per_gallon := by
    apply hp
    unfold stationAt
    rw [List.getD_eq_getElem _ _ hidx]
    exact List.getElem_mem hidx
  nlinarith [mul_nonneg h1 h2]

/-- The accumulated fuel cost never decreases along the loop: the initial
fill is only ever added to (every fill-up cost is nonnegative under
nonnegative prices). -/
lemma runLoop_cost_mono (cfg : PlanConfig)
    (hp : ∀ st ∈ cfg.stations, 0 ≤ st.fuel_price_per_gallon) :
    ∀ n (s r : SimState) (b : Bool), runLoop cfg n s = some (r, b) →
      s.current_fuel_cost ≤ r.current_fuel_cost := by
  intro n
  induction n with
  | zero =>
      intro s r b h
      exact absurd h (by simp [runLoop])
  | succ n ih =>
      intro s r b h
      rw [runLoop] at h
      split_ifs at h with hg
      · cases hstep : stepSim cfg s with
        | finished s' =>
            rw [hstep] at h
            simp only [Option.some.injEq, Prod.mk.injEq] at h
            rw [← h.1, stepSim_finished_inv hstep]
        | stuck s' =>
            rw [hstep] at h
            simp only [Option.some.injEq, Prod.mk.injEq] at h
            rw [← h.1, stepSim_stuck_inv hstep]
        | next s' =>
            rw [hstep] at h
            obtain ⟨c, hm, happ⟩ := stepSim_next_inv hstep
            obtain ⟨hmem, _⟩ := chooseBest_spec hm
            obtain ⟨i, hi, hmk⟩ := viable_mem_inv hmem
            obtain ⟨hsi, _, _, _, _⟩ := mkCandidate_some hmk
            have hidx : c.stationIdx < cfg.stations.length :=
              hsi ▸ mem_candidateIndices_lt hi
            calc s.current_fuel_cost
                ≤ (applyStop cfg s c).current_fuel_cost :=
                  applyStop_cost_ge cfg s c hp hidx
              _ = s'.current_fuel_cost := by rw [← happ]
              _ ≤ r.current_fuel_cost := ih s' r b h
      · simp only [Option.some.injEq, Prod.mk.injEq] at h
        rw [← h.1]

/-- C7: the claim that `find_optimal_fuel_stops` signals failure by
returning the sentinel total cost `-1` (which views.py line 64 tests for)
is false on the code: on a run that fails to find a viable plan the
function returns the accumulated positive cost (here `200`), and with
nonnegative station prices no run whatsoever can return cost `-1` — the
total is always at least the strictly positive initial fill (or exactly
`0` from the early empty-input return). -/
theorem c7_failure_not_signalled_by_minus_one :
    find_optimal_fuel_stops noStationCfg 5 = some ([], 200, 0) ∧
    ∀ (cfg : PlanConfig) (n : ℕ) (stops : List FuelStop) (cost dur : ℚ),
      (∀ st ∈ cfg.stations, 0 ≤ st.fuel_price_per_gallon) →
      find_optimal_fuel_stops cfg n = some (stops, cost, dur) → cost ≠ -1 := by
  constructor
  · unfold find_optimal_fuel_stops
    rw [if_neg (by simp [noStationCfg]), noStationCfg_run]
    rfl
  · intro cfg n stops cost dur hp hrun hEq
    unfold find_optimal_fuel_stops at hrun
    split_ifs at hrun with hguard
    · simp only [Option.some.injEq, Prod.mk.injEq] at hrun
      rw [← hrun.2.1] at hEq
      norm_num at hEq
    · unfold find_run at hrun
      rw [Option.map_eq_some'] at hrun
      obtain ⟨⟨r, b⟩, hr, hmap⟩ := hrun
      simp only [Prod.mk.injEq] at hmap
      have hcost : cost = r.current_fuel_cost := hmap.2.1.symm
      have hge := runLoop_cost_mono cfg hp n (initState cfg) r b hr
      have hinit : (initState cfg).current_fuel_cost =
          initialFillCost cfg.stations := rfl
      have hpos : 0 < r.current_fuel_cost := by
        have := initialFillCost_pos cfg.stations
        rw [hinit] at hge
        linarith
      rw [hcost] at hEq
      rw [hEq] at hpos
      norm_num at hpos

/-- Witness for C7's universal part at a concrete failing run. -/
theorem c7_witness : (200 : ℚ) ≠ -1 :=
  c7_failure_not_signalled_by_minus_one.2 noStationCfg 5 [] 200 0
    (by
      intro st hst
      simp only [noStationCfg, List.mem_singleton] at hst
      subst hst
      norm_num)
    c7_failure_not_signalled_by_minus_one.1

/-! ### C6: recorded stop distances are not strictly increasing, but the
per-stop fill is bounded by tank capacity -/

lemma roundHalfEven_le (q : ℚ) : (roundHalfEven q : ℚ) ≤ q + 1/2 := by
  have hfl : (⌊q⌋ : ℚ) ≤ q := Int.floor_le q
  unfold roundHalfEven
  split_ifs with h1 h2 h3
  · linarith
  · push_cast
    linarith
  · linarith
  · have h4 : q - ⌊q⌋ = 1/2 := le_antisymm (not_lt.mp h2) (not_lt.mp h1)
    push_cast
    linarith

lemma round2_le_50 {x : ℚ} (h : x ≤ 50) : round2 x ≤ 50 := by
  have h1 := roundHalfEven_le (100 * x)
  have h2 : (roundHalfEven (100 * x) : ℚ) ≤ 5000 + 1/2 := by linarith
  have h3 : roundHalfEven (100 * x) ≤ 5000 := by
    by_contra hc
    push_neg at hc
    have : (5001 : ℚ) ≤ (roundHalfEven (100 * x) : ℚ) := by exact_mod_cast hc
    linarith
  unfold round2
  have h4 : (roundHalfEven (100 * x) : ℚ) ≤ 5000 := by exact_mod_cast h3
  linarith

lemma fuelNeeded_le {detour : ℚ} (h : detour ≤ VEHICLE_RANGE_MILES) :
    fuelNeeded VEHICLE_RANGE_MILES detour ≤
      VEHICLE_RANGE_MILES / MILES_PER_GALLON := by
  unfold fuelNeeded VEHICLE_RANGE_MILES MILES_PER_GALLON at *
  rw [max_le_iff]
  constructor <;> norm_num
  linarith

/-- Loop invariant: the tank is full at each loop head, which together
with the detour-affordability check keeps every recorded fill within the
tank capacity. -/
lemma runLoop_stops_fuel_bound (cfg : PlanConfig) :
    ∀ n (s r : SimState) (b : Bool),
      s.current_range = VEHICLE_RANGE_MILES →
      (∀ st ∈ s.optimal_stops,
        st.fuel_added_gallons ≤ VEHICLE_RANGE_MILES / MILES_PER_GALLON) →
      runLoop cfg n s = some (r, b) →
      ∀ st ∈ r.optimal_stops,
        st.fuel_added_gallons ≤ VEHICLE_RANGE_MILES / MILES_PER_GALLON := by
  intro n
  induction n with
  | zero =>
      intro s r b _ _ h
      exact absurd h (by simp [runLoop])
  | succ n ih =>
      intro s r b hrange hstops h
      rw [runLoop] at h
      split_ifs at h with hg
      · cases hstep : stepSim cfg s with
        | finished s' =>
            rw [hstep] at h
            simp only [Option.some.injEq, Prod.mk.injEq] at h
            rw [← h.1, stepSim_finished_inv hstep]
            exact hstops
        | stuck s' =>
            rw [hstep] at h
            simp only [Option.some.injEq, Prod.mk.injEq] at h
            rw [← h.1, stepSim_stuck_inv hstep]
            exact hstops
        | next s' =>
            rw [hstep] at h
            obtain ⟨c, hm, happ⟩ := stepSim_next_inv hstep
            obtain ⟨hmem, _⟩ := chooseBest_spec hm
            obtain ⟨i, hi, hmk⟩ := viable_mem_inv hmem
            obtain ⟨_, _, _, _, hdet⟩ := mkCandidate_some hmk
            refine ih s' r b ?_ ?_ h
            · rw [happ]
              rfl
            · rw [happ]
              show ∀ st ∈ s.optimal_stops ++ [_], _
              intro st hst
              rcases List.mem_append.mp hst with hst | hst
              · exact hstops st hst
              · rw [List.mem_singleton] at hst
                subst hst
                show round2 (fuelNeeded s.current_range c.detour_distance) ≤ _
                rw [hrange] at hdet ⊢
                have hf := fuelNeeded_le hdet
                have h50 : VEHICLE_RANGE_MILES / MILES_PER_GALLON = 50 := by
                  norm_num [VEHICLE_RANGE_MILES, MILES_PER_GALLON]
                rw [h50] at hf ⊢
                exact round2_le_50 hf
      · simp only [Option.some.injEq, Prod.mk.injEq] at h
        rw [← h.1]
        exact hstops

/-- C6 (amended): every stop recorded by a completed run adds at most a
full tank of fuel (`rangeMiles / milesPerGallon = 50` gallons), i.e. the
consumption since the last fill — the detour — never exceeds
`VEHICLE_RANGE_MILES`. -/
theorem c6_amended_fuel_per_stop_bounded (cfg : PlanConfig) (n : ℕ)
    (r : SimState) (b : Bool) (h : find_run cfg n = some (r, b)) :
    ∀ st ∈ r.optimal_stops,
      st.fuel_added_gallons ≤ VEHICLE_RANGE_MILES / MILES_PER_GALLON :=
  runLoop_stops_fuel_bound cfg n (initState cfg) r b rfl
    (by intro st hst; simp [initState] at hst) h

/-! The counterexample scenario: a start far south of the route, an
expensive first stop with a 427.8-mile detour rejoining at route index 1,
then a cheaper second stop (invisible to the first lookahead window)
whose detour is much smaller — the second recorded distance-from-start,
248.4, is below the first, 427.8. -/

/-- Six-point route that folds back towards its own start region. -/
def decreasingCfg : PlanConfig :=
  { route_geometry := [⟨0, 0⟩, ⟨1/5, 0⟩, ⟨32/5, 0⟩, ⟨131/20, 0⟩,
      ⟨1/5, 3/2⟩, ⟨1/5, 8⟩]
    total_distance_miles := 14421/10
    start_coords := ⟨0, -6⟩
    end_coords := ⟨1/5, 8⟩
    stations := [⟨1/5, -1/2, 7/2, 1⟩, ⟨1/5, 11/5, 3, 2⟩]
    d := mdist }

lemma dec_init : initState decreasingCfg = ⟨[], ⟨0, -6⟩, 325/2, 500, 0, 0, 0⟩ := by
  norm_num [initState, decreasingCfg, initialFillCost, _get_average_fuel_price,
    VEHICLE_RANGE_MILES, MILES_PER_GALLON, closestIdx, closestIdxGo, distUpTo,
    segmentDistances, routeSegments, mdist, abs_eq_max_neg, max_def,
    List.filter]
  split_ifs <;> simp_all

lemma dec_distToEnd0 : distToEndFrom mdist [⟨0, 0⟩, ⟨1/5, 0⟩, ⟨32/5, 0⟩,
    ⟨131/20, 0⟩, ⟨1/5, 3/2⟩, ⟨1/5, 8⟩] 0 = 14421/10 := by
  norm_num [distToEndFrom, segmentDistances, routeSegments, mdist,
    abs_eq_max_neg, max_def]

lemma dec_candIdx0 :
    candidateIndices decreasingCfg ⟨[], ⟨0, -6⟩, 325/2, 500, 0, 0, 0⟩ = [0] := by
  norm_num [candidateIndices, decreasingCfg, lookaheadPoints, lookaheadGo,
    mdist, abs_eq_max_neg, max_def, FUEL_BUFFER_MILES,
    unique_candidate_station_indices, query_ball_point, stationCoords,
    search_radius_degrees, search_radius_miles, List.range_succ, List.filter]

lemma dec_viable0 : viable_candidates decreasingCfg ⟨0, -6⟩ 500 0 [0] =
    [⟨0, 3933/10, 7/2, 1, 2139/5⟩] := by
  norm_num [viable_candidates, mkCandidate, decreasingCfg, stationAt,
    stationPoint, rejoinIdx, rejoinPoint, closestIdx, closestIdxGo, mdist,
    abs_eq_max_neg, max_def, search_radius_miles, List.filterMap]

lemma dec_round_a : round2 (2139/5) = 2139/5 := by
  norm_num [round2, roundHalfEven]

lemma dec_round_b : round2 (2139/50) = 2139/50 := by
  norm_num [round2, roundHalfEven]

lemma dec_round_c : round2 (14973/100) = 14973/100 := by
  norm_num [round2, roundHalfEven]

lemma dec_apply0 :
    applyStop decreasingCfg ⟨[], ⟨0, -6⟩, 325/2, 500, 0, 0, 0⟩
      ⟨0, 3933/10, 7/2, 1, 2139/5⟩ =
      ⟨[⟨0, 1/5, -1/2, 7/2, 2139/5, 2139/50, 14973/100⟩],
        ⟨1/5, -1/2⟩, 31223/100, 500, 1, 69/5, 38502⟩ := by
  simp only [applyStop, fuelNeeded, VEHICLE_RANGE_MILES, MILES_PER_GALLON]
  norm_num [decreasingCfg, stationAt, dec_round_a, dec_round_b, dec_round_c,
    distUpTo, segmentDistances, routeSegments, mdist, abs_eq_max_neg, max_def]

lemma dec_step0 : stepSim decreasingCfg ⟨[], ⟨0, -6⟩, 325/2, 500, 0, 0, 0⟩ =
    .next ⟨[⟨0, 1/5, -1/2, 7/2, 2139/5, 2139/50, 14973/100⟩],
      ⟨1/5, -1/2⟩, 31223/100, 500, 1, 69/5, 38502⟩ := by
  unfold stepSim
  rw [show decreasingCfg.d = mdist from rfl,
    show decreasingCfg.route_geometry = [⟨0, 0⟩, ⟨1/5, 0⟩, ⟨32/5, 0⟩,
      ⟨131/20, 0⟩, ⟨1/5, 3/2⟩, ⟨1/5, 8⟩] from rfl]
  rw [show (⟨[], ⟨0, -6⟩, 325/2, 500, 0, 0, 0⟩ : SimState).current_route_point_idx
      = 0 from rfl,
    show (⟨[], ⟨0, -6⟩, 325/2, 500, 0, 0, 0⟩ : SimState).current_range = 500
      from rfl,
    show (⟨[], ⟨0, -6⟩, 325/2, 500, 0, 0, 0⟩ : SimState).current_location
      = ⟨0, -6⟩ from rfl]
  rw [dec_distToEnd0, if_neg (by norm_num), dec_candIdx0,
    if_neg (by simp), dec_viable0]
  rw [show chooseBest [⟨0, 3933/10, 7/2, 1, 2139/5⟩] =
    some ⟨0, 3933/10, 7/2, 1, 2139/5⟩ from rfl]
  show StepOutcome.next (applyStop decreasingCfg
    ⟨[], ⟨0, -6⟩, 325/2, 500, 0, 0, 0⟩ ⟨0, 3933/10, 7/2, 1, 2139/5⟩) = _
  rw [dec_apply0]

lemma dec_distToEnd1 : distToEndFrom mdist [⟨0, 0⟩, ⟨1/5, 0⟩, ⟨32/5, 0⟩,
    ⟨131/20, 0⟩, ⟨1/5, 3/2⟩, ⟨1/5, 8⟩] 1 = 14283/10 := by
  norm_num [distToEndFrom, segmentDistances, routeSegments, mdist,
    abs_eq_max_neg, max_def]

lemma dec_candIdx1 (stops : List FuelStop) (cost dur : ℚ) :
    candidateIndices decreasingCfg ⟨stops, ⟨1/5, -1/2⟩, cost, 500, 1, 69/5, dur⟩ =
    [0, 1] := by
  norm_num [candidateIndices, decreasingCfg, lookaheadPoints, lookaheadGo,
    mdist, abs_eq_max_neg, max_def, FUEL_BUFFER_MILES,
    unique_candidate_station_indices, query_ball_point, stationCoords,
    search_radius_degrees, search_radius_miles, List.range_succ, List.filter]

lemma dec_viable1 : viable_candidates decreasingCfg ⟨1/5, -1/2⟩ 500 1 [0, 1] =
    [⟨0, 0, 7/2, 1, 69/2⟩, ⟨1, 1863/10, 3, 4, 1173/5⟩] := by
  norm_num [viable_candidates, mkCandidate, decreasingCfg, stationAt,
    stationPoint, rejoinIdx, rejoinPoint, closestIdx, closestIdxGo, mdist,
    abs_eq_max_neg, max_def, search_radius_miles, List.filterMap]

lemma dec_choose1 : chooseBest [⟨0, 0, 7/2, 1, 69/2⟩, ⟨1, 1863/10, 3, 4, 1173/5⟩] =
    some ⟨1, 1863/10, 3, 4, 1173/5⟩ := by
  norm_num [chooseBest, keyLtB, List.foldl]

lemma dec_round_d : round2 (1242/5) = 1242/5 := by
  norm_num [round2, roundHalfEven]

lemma dec_round_e : round2 (1173/50) = 1173/50 := by
  norm_num [round2, roundHalfEven]

lemma dec_round_f : round2 (3519/50) = 3519/50 := by
  norm_num [round2, roundHalfEven]

lemma dec_apply1 :
    applyStop decreasingCfg ⟨[⟨0, 1/5, -1/2, 7/2, 2139/5, 2139/50, 14973/100⟩],
        ⟨1/5, -1/2⟩, 31223/100, 500, 1, 69/5, 38502⟩
      ⟨1, 1863/10, 3, 4, 1173/5⟩ =
      ⟨[⟨0, 1/5, -1/2, 7/2, 2139/5, 2139/50, 14973/100⟩,
        ⟨1, 1/5, 11/5, 3, 1242/5, 1173/50, 3519/50⟩],
        ⟨1/5, 11/5⟩, 38261/100, 500, 4, 4968/5, 59616⟩ := by
  simp only [applyStop, fuelNeeded, VEHICLE_RANGE_MILES, MILES_PER_GALLON]
  norm_num [decreasingCfg, stationAt, dec_round_d, dec_round_e, dec_round_f,
    distUpTo, segmentDistances, routeSegments, mdist, abs_eq_max_neg, max_def]

lemma dec_step1 : stepSim decreasingCfg
    ⟨[⟨0, 1/5, -1/2, 7/2, 2139/5, 2139/50, 14973/100⟩],
      ⟨1/5, -1/2⟩, 31223/100, 500, 1, 69/5, 38502⟩ =
    .next ⟨[⟨0, 1/5, -1/2, 7/2, 2139/5, 2139/50, 14973/100⟩,
        ⟨1, 1/5, 11/5, 3, 1242/5, 1173/50, 3519/50⟩],
      ⟨1/5, 11/5⟩, 38261/100, 500, 4, 4968/5, 59616⟩ := by
  unfold stepSim
  rw [show decreasingCfg.d = mdist from rfl,
    show decreasingCfg.route_geometry = [⟨0, 0⟩, ⟨1/5, 0⟩, ⟨32/5, 0⟩,
      ⟨131/20, 0⟩, ⟨1/5, 3/2⟩, ⟨1/5, 8⟩] from rfl]
  rw [show (⟨[⟨0, 1/5, -1/2, 7/2, 2139/5, 2139/50, 14973/100⟩],
      ⟨1/5, -1/2⟩, 31223/100, 500, 1, 69/5, 38502⟩ : SimState).current_route_point_idx
      = 1 from rfl,
    show (⟨[⟨0, 1/5, -1/2, 7/2, 2139/5, 2139/50, 14973/100⟩],
      ⟨1/5, -1/2⟩, 31223/100, 500, 1, 69/5, 38502⟩ : SimState).current_range = 500
      from rfl,
    show (⟨[⟨0, 1/5, -1/2, 7/2, 2139/5, 2139/50, 14973/100⟩],
      ⟨1/5, -1/2⟩, 31223/100, 500, 1, 69/5, 38502⟩ : SimState).current_location
      = ⟨1/5, -1/2⟩ from rfl]
  rw [dec_distToEnd1, if_neg (by norm_num), dec_candIdx1,
    if_neg (by simp), dec_viable1, dec_choose1]
  show StepOutcome.next (applyStop decreasingCfg
    ⟨[⟨0, 1/5, -1/2, 7/2, 2139/5, 2139/50, 14973/100⟩],
      ⟨1/5, -1/2⟩, 31223/100, 500, 1, 69/5, 38502⟩
    ⟨1, 1863/10, 3, 4, 1173/5⟩) = _
  rw [dec_apply1]

lemma dec_distToEnd4 : distToEndFrom mdist [⟨0, 0⟩, ⟨1/5, 0⟩, ⟨32/5, 0⟩,
    ⟨131/20, 0⟩, ⟨1/5, 3/2⟩, ⟨1/5, 8⟩] 4 = 897/2 := by
  norm_num [distToEndFrom, segmentDistances, routeSegments, mdist,
    abs_eq_max_neg, max_def]

lemma dec_step2 : stepSim decreasingCfg
    ⟨[⟨0, 1/5, -1/2, 7/2, 2139/5, 2139/50, 14973/100⟩,
        ⟨1, 1/5, 11/5, 3, 1242/5, 1173/50, 3519/50⟩],
      ⟨1/5, 11/5⟩, 38261/100, 500, 4, 4968/5, 59616⟩ =
    .finished ⟨[⟨0, 1/5, -1/2, 7/2, 2139/5, 2139/50, 14973/100⟩,
        ⟨1, 1/5, 11/5, 3, 1242/5, 1173/50, 3519/50⟩],
      ⟨1/5, 11/5⟩, 38261/100, 500, 4, 4968/5, 59616⟩ := by
  unfold stepSim
  rw [show decreasingCfg.d = mdist from rfl,
    show decreasingCfg.route_geometry = [⟨0, 0⟩, ⟨1/5, 0⟩, ⟨32/5, 0⟩,
      ⟨131/20, 0⟩, ⟨1/5, 3/2⟩, ⟨1/5, 8⟩] from rfl]
  rw [show (⟨[⟨0, 1/5, -1/2, 7/2, 2139/5, 2139/50, 14973/100⟩,
        ⟨1, 1/5, 11/5, 3, 1242/5, 1173/50, 3519/50⟩],
      ⟨1/5, 11/5⟩, 38261/100, 500, 4, 4968/5, 59616⟩ : SimState).current_route_point_idx
      = 4 from rfl,
    show (⟨[⟨0, 1/5, -1/2, 7/2, 2139/5, 2139/50, 14973/100⟩,
        ⟨1, 1/5, 11/5, 3, 1242/5, 1173/50, 3519/50⟩],
      ⟨1/5, 11/5⟩, 38261/100, 500, 4, 4968/5, 59616⟩ : SimState).current_range = 500
      from rfl]
  rw [dec_distToEnd4, if_pos (by norm_num)]

lemma dec_run : find_run decreasingCfg 5 =
    some (⟨[⟨0, 1/5, -1/2, 7/2, 2139/5, 2139/50, 14973/100⟩,
        ⟨1, 1/5, 11/5, 3, 1242/5, 1173/50, 3519/50⟩],
      ⟨1/5, 11/5⟩, 38261/100, 500, 4, 4968/5, 59616⟩, false) := by
  unfold find_run
  rw [dec_init]
  rw [runLoop]
  rw [show (⟨[], ⟨0, -6⟩, 325/2, 500, 0, 0, 0⟩ : SimState).distance_traversed_along_route
      = 0 from rfl,
    show decreasingCfg.total_distance_miles = 14421/10 from rfl]
  rw [if_pos (by norm_num), dec_step0]
  show runLoop decreasingCfg 4
    ⟨[⟨0, 1/5, -1/2, 7/2, 2139/5, 2139/50, 14973/100⟩],
      ⟨1/5, -1/2⟩, 31223/100, 500, 1, 69/5, 38502⟩ = _
  rw [runLoop]
  rw [show (⟨[⟨0, 1/5, -1/2, 7/2, 2139/5, 2139/50, 14973/100⟩],
      ⟨1/5, -1/2⟩, 31223/100, 500, 1, 69/5, 38502⟩ : SimState).distance_traversed_along_route
      = 69/5 from rfl,
    show decreasingCfg.total_distance_miles = 14421/10 from rfl]
  rw [if_pos (by norm_num), dec_step1]
  show runLoop decreasingCfg 3
    ⟨[⟨0, 1/5, -1/2, 7/2, 2139/5, 2139/50, 14973/100⟩,
        ⟨1, 1/5, 11/5, 3, 1242/5, 1173/50, 3519/50⟩],
      ⟨1/5, 11/5⟩, 38261/100, 500, 4, 4968/5, 59616⟩ = _
  rw [runLoop]
  rw [show (⟨[⟨0, 1/5, -1/2, 7/2, 2139/5, 2139/50, 14973/100⟩,
        ⟨1, 1/5, 11/5, 3, 1242/5, 1173/50, 3519/50⟩],
      ⟨1/5, 11/5⟩, 38261/100, 500, 4, 4968/5, 59616⟩ : SimState).distance_traversed_along_route
      = 4968/5 from rfl,
    show decreasingCfg.total_distance_miles = 14421/10 from rfl]
  rw [if_pos (by norm_num), dec_step2]

/-- C6 (counterexample): a successfully returned two-stop plan whose
recorded distances-from-start are `427.8` then `248.4` — not strictly
increasing.  The second stop's detour from the first station is far
smaller than the first stop's detour from the distant trip start, and the
traversed-route distance at the time of the second stop is still only
13.8 miles. -/
theorem c6_stop_distances_not_strictly_increasing :
    find_optimal_fuel_stops decreasingCfg 5 =
      some ([⟨0, 1/5, -1/2, 7/2, 2139/5, 2139/50, 14973/100⟩,
             ⟨1, 1/5, 11/5, 3, 1242/5, 1173/50, 3519/50⟩], 38261/100, 59616) ∧
    ¬ List.Chain' (fun a b : FuelStop =>
        a.distance_from_start_miles < b.distance_from_start_miles)
      [⟨0, 1/5, -1/2, 7/2, 2139/5, 2139/50, 14973/100⟩,
       ⟨1, 1/5, 11/5, 3, 1242/5, 1173/50, 3519/50⟩] := by
  constructor
  · unfold find_optimal_fuel_stops
    rw [if_neg (by simp [decreasingCfg]), dec_run]
    rfl
  · intro hch
    have h1 := (List.chain'_cons.mp hch).1
    norm_num at h1

/-- Witness for the amended C6 at a concrete completed run: the first
stop of `decreasingCfg`'s plan adds `42.78 ≤ 50` gallons. -/
theorem c6_witness :
    (⟨0, 1/5, -1/2, 7/2, 2139/5, 2139/50, 14973/100⟩ : FuelStop).fuel_added_gallons
      ≤ VEHICLE_RANGE_MILES / MILES_PER_GALLON :=
  c6_amended_fuel_per_stop_bounded decreasingCfg 5
    ⟨[⟨0, 1/5, -1/2, 7/2, 2139/5, 2139/50, 14973/100⟩,
        ⟨1, 1/5, 11/5, 3, 1242/5, 1173/50, 3519/50⟩],
      ⟨1/5, 11/5⟩, 38261/100, 500, 4, 4968/5, 59616⟩ false dec_run
    _ (by simp)

end Spotter
